import Mathlib

/-!
Shallow embedding of the entity-resolution core of the Options NER
repository (`src/api.py`, tables from `src/train_model.py`).

The core is `extract_options_data(query)` in `api.py` (lines 142-315),
which reads the recognizer spans (`doc.ents`) and the two module-global
canonicalization tables `index_mapper` / `option_mapper`.  Here the spans
and the tables are explicit parameters, matching the spec's interface
`resolve(query, spans, indexTable, optionTable)`.

Python-specific behaviour is modelled explicitly:
  * `strContains h n` is Python's substring test `n in h`;
  * `pythonInt` is `int(s)` (`Option`-valued: `none` = `ValueError`);
  * `strikeSearch` is `re.search(r'\b(\d{4,5})\b', query)`;
  * the possibly-unbound local `query_lower` of `extract_options_data`
    is threaded as a `Bool` flag, and reading it while unbound produces
    `Except.error "UnboundLocalError"` (api.py line 284 can do this).

Strings are treated at the ASCII level (`Char.toLower`, `Char.isDigit`),
which coincides with Python's behaviour on the ASCII inputs the spec and
the claims are concerned with.
-/

namespace OptionsNER

/-- Entity labels emitted by the spaCy recognizer (`ent.label_`).
`OTHER` stands for any label other than the three the core inspects;
the `elif` chain in api.py lines 167-201 ignores such spans. -/
inductive Label where
  | INDEX
  | STRIKE_PRICE
  | OPTION_TYPE
  | OTHER
deriving DecidableEq, Repr

/-- One recognizer span: its surface text and its label. -/
structure Span where
  text : String
  label : Label
deriving DecidableEq, Repr

/-- The `result` dict of `extract_options_data` (api.py lines 150-154):
each field is a value or `None`. -/
structure Result where
  index : Option String
  strikePrice : Option Int
  strikeType : Option String
deriving DecidableEq, Repr

/-- A canonicalization table: a Python dict in insertion order
(`index_mapper`, `option_mapper`). -/
abbrev Table := List (String × String)

/-- Whether the character list `n` is an infix of `h`
(helper for Python's substring test). -/
def infixChars (n : List Char) : List Char → Bool
  | [] => n.isEmpty
  | c :: cs => n.isPrefixOf (c :: cs) || infixChars n cs

/-- Python's `needle in haystack` on strings: substring containment. -/
def strContains (haystack needle : String) : Bool :=
  infixChars needle.data haystack.data

/-- Python `str.lower()` (ASCII), character by character. -/
def pyLower (s : String) : String := String.mk (s.data.map Char.toLower)

/-- Python `str.upper()` (ASCII), character by character. -/
def pyUpper (s : String) : String := String.mk (s.data.map Char.toUpper)

/-- Python whitespace as stripped by `int()`. -/
def pyIsSpace (c : Char) : Bool :=
  c = ' ' || c = '\t' || c = '\n' || c = '\r' || c = '\x0b' || c = '\x0c'

/-- Numeric value of a list of decimal digit characters. -/
def digitsToNat (l : List Char) : Nat :=
  l.foldl (fun a c => a * 10 + (c.toNat - 48)) 0

/-- Digit run with optional single underscores between digits, as accepted
by Python's `int()` after the sign (e.g. `int("1_234") = 1234`);
`none` on any other shape. `acc` is the value of the digits read so far. -/
def parseDigitsU (acc : Nat) : List Char → Option Nat
  | [] => some acc
  | '_' :: c :: rest =>
      if c.isDigit then parseDigitsU (acc * 10 + (c.toNat - 48)) rest else none
  | c :: rest =>
      if c.isDigit then parseDigitsU (acc * 10 + (c.toNat - 48)) rest else none

/-- Python `int(s)`: strip whitespace, optional sign, digits (with
underscore separators); `none` models the raised `ValueError`. -/
def pythonInt (s : String) : Option Int :=
  let t := ((s.data.dropWhile pyIsSpace).reverse.dropWhile pyIsSpace).reverse
  match t with
  | '+' :: c :: rest =>
      if c.isDigit then (parseDigitsU (c.toNat - 48) rest).map Int.ofNat else none
  | '-' :: c :: rest =>
      if c.isDigit then (parseDigitsU (c.toNat - 48) rest).map (fun n => -(n : Int))
      else none
  | c :: rest =>
      if c.isDigit then (parseDigitsU (c.toNat - 48) rest).map Int.ofNat else none
  | [] => none

/-- A regex word character (`\w`, ASCII): letter, digit or underscore. -/
def isWordChar (c : Char) : Bool := c.isAlphanum || c = '_'

/-- True when the list starts at a position where `\b` holds coming from a
digit match: empty, or the next character is not a word character. -/
def boundaryAfter : List Char → Bool
  | [] => true
  | c :: _ => !(isWordChar c)

/-- Does `l` start with exactly `k` digits followed by a word boundary? -/
def matchDigitsLen (l : List Char) (k : Nat) : Bool :=
  (l.take k).length == k && (l.take k).all Char.isDigit && boundaryAfter (l.drop k)

/-- At the current position, the regex `\d{4,5}\b` (greedy: five digits
tried before four). Returns the matched number. -/
def tryStrikeAt (l : List Char) : Option Nat :=
  if matchDigitsLen l 5 then some (digitsToNat (l.take 5))
  else if matchDigitsLen l 4 then some (digitsToNat (l.take 4))
  else none

/-- Left-to-right scan for `re.search(r'\b(\d{4,5})\b', ·)`; `prev` is the
character before the current position (`none` at the start of the string),
used for the leading `\b`. -/
def strikeSearchAux (prev : Option Char) : List Char → Option Nat
  | [] => none
  | c :: rest =>
      let boundaryOk := match prev with
        | none => true
        | some p => !(isWordChar p)
      if boundaryOk then
        match tryStrikeAt (c :: rest) with
        | some n => some n
        | none => strikeSearchAux (some c) rest
      else strikeSearchAux (some c) rest

/-- The strike-price fallback regex of api.py line 242:
`re.search(r'\b(\d{4,5})\b', query)` on the original-case query,
converted to the stored integer (`int(strike_match.group(1))`). -/
def strikeSearch (q : String) : Option Int :=
  (strikeSearchAux none q.data).map Int.ofNat

/-- First key of the table (dict iteration order) that occurs as a
substring of `text` (the `for known_index in index_mapper.keys()` loop,
api.py lines 173-177). -/
def firstContainedKey (t : Table) (text : String) : Option String :=
  match t with
  | [] => none
  | (k, _) :: rest => if strContains text k then some k else firstContainedKey rest text

/-- First value of the table whose key occurs as a substring of `hay`
(the fallback scan loops of api.py lines 225-230, 234-238, 250-254). -/
def firstContainedValue (t : Table) (hay : String) : Option String :=
  match t with
  | [] => none
  | (k, v) :: rest => if strContains hay k then some v else firstContainedValue rest hay

/-- Python `key in dict` / `dict[key]` combined: the value stored at `k`. -/
def tableLookup (t : Table) (k : String) : Option String :=
  match t with
  | [] => none
  | (k', v) :: rest => if k' = k then some v else tableLookup rest k

/-- Resolution of one INDEX span (api.py lines 167-186): lowercase the
span text; if any table key is contained in it, replace the text by that
key; then map through the table, or fall back to the upper-cased raw
span text on a miss. -/
def resolveIndexSpanText (idxT : Table) (text : String) : String :=
  let indexText := pyLower text
  let indexText := match firstContainedKey idxT indexText with
    | some k => k
    | none => indexText
  match tableLookup idxT indexText with
  | some v => v
  | none => pyUpper text

/-- Resolution of one STRIKE_PRICE span (api.py lines 188-194):
`int(ent.text)`, and on `ValueError` the concatenation of all digit runs
(`re.findall(r'\d+', ent.text)` joined, which is exactly the subsequence
of digit characters); a span with no digits yields no value. -/
def strikeSpanValue (text : String) : Option Int :=
  match pythonInt text with
  | some n => some n
  | none =>
      if text.data.any Char.isDigit then
        some (Int.ofNat (digitsToNat (text.data.filter Char.isDigit)))
      else none

/-- Resolution of one OPTION_TYPE span (api.py lines 196-201). -/
def resolveOptionSpanText (optT : Table) (text : String) : String :=
  match tableLookup optT (pyLower text) with
  | some v => v
  | none => pyUpper text

/-- One iteration of the `for ent in doc.ents` loop (api.py lines 166-201).
Note the STRIKE_PRICE branch assigns only when a value is obtained, so an
earlier span's value survives a later digit-free span. -/
def primaryStep (idxT optT : Table) (r : Result) (sp : Span) : Result :=
  match sp.label with
  | .INDEX => { r with index := some (resolveIndexSpanText idxT sp.text) }
  | .STRIKE_PRICE =>
      match strikeSpanValue sp.text with
      | some n => { r with strikePrice := some n }
      | none => r
  | .OPTION_TYPE => { r with strikeType := some (resolveOptionSpanText optT sp.text) }
  | .OTHER => r

/-- The Primary Resolver: the span loop run over the recognizer output in
emission order, starting from the all-`None` result dict. -/
def primaryResolver (idxT optT : Table) (spans : List Span) : Result :=
  spans.foldl (primaryStep idxT optT) ⟨none, none, none⟩

/-- Python's `None in result.values()` guard (api.py line 204). -/
def anyNone (r : Result) : Bool :=
  r.index.isNone || r.strikePrice.isNone || r.strikeType.isNone

/-- The hardcoded `priority_indices` dict (api.py lines 213-221 and again
271-279), in insertion order. -/
def priority_indices : Table :=
  [("banknifty", "BANKNIFTY"),
   ("bank nifty", "BANKNIFTY"),
   ("finnifty", "FINNIFTY"),
   ("fin nifty", "FINNIFTY"),
   ("midcap", "MIDCAPNIFTY"),
   ("midcap nifty", "MIDCAPNIFTY"),
   ("sensex", "SENSEX")]

/-- Index fallback (api.py lines 211-238): the priority dict first, only
then the general `index_mapper` scan. -/
def indexFallback (idxT : Table) (qLower : String) : Option String :=
  match firstContainedValue priority_indices qLower with
  | some v => some v
  | none => firstContainedValue idxT qLower

/-- Option-type fallback (api.py lines 248-263): the `option_mapper` scan
first; if it finds nothing, the literal pattern checks (note the
substring tests are not token-bounded: `"ce " in "price of"` holds). -/
def optionFallback (optT : Table) (qLower : String) : Option String :=
  match firstContainedValue optT qLower with
  | some v => some v
  | none =>
      if strContains qLower "call" || strContains qLower " ce" ||
         strContains qLower "ce " || strContains qLower " ce " then some "CE"
      else if strContains qLower "put" || strContains qLower " pe" ||
              strContains qLower "pe " || strContains qLower " pe " then some "PE"
      else none

/-- Body of the fallback block (api.py lines 205-263): three sequential
sub-blocks, each guarded by its own field being `None` and writing only
that field. -/
def fallbackCore (q : String) (idxT optT : Table) (r : Result) : Result :=
  let qLower := pyLower q
  let r1 := if r.index.isNone then { r with index := indexFallback idxT qLower } else r
  let r2 := if r1.strikePrice.isNone then { r1 with strikePrice := strikeSearch q } else r1
  if r2.strikeType.isNone then { r2 with strikeType := optionFallback optT qLower } else r2

/-- The fallback stage with its `None in result.values()` guard
(api.py lines 204-263). -/
def fallbackStage (q : String) (idxT optT : Table) (r : Result) : Result :=
  if anyNone r then fallbackCore q idxT optT r else r

/-- The repaired index computed by the cleanup block when the resolved
index contains a space (api.py lines 281-296): the priority dict scan,
then the `index_mapper` scan; on no match in either, no assignment
happens and the spaced value `s` persists. -/
def cleanupIndex (q : String) (idxT : Table) (s : String) : Option String :=
  let qLower := pyLower q
  match firstContainedValue priority_indices qLower with
  | some v => some v
  | none =>
      match firstContainedValue idxT qLower with
      | some v => some v
      | none => some s

/-- The spaced-index cleanup (api.py lines 266-296); it writes only the
`index` field.  `qLowerDefined` records whether the fallback block ran:
the local `query_lower` is assigned only there (line 208), and this block
reads it (lines 284, 293).  When the local is unbound Python raises
`UnboundLocalError`, modelled as `Except.error`. -/
def cleanupStage (qLowerDefined : Bool) (q : String) (idxT : Table) (r : Result) :
    Except String Result :=
  match r.index with
  | none => .ok r
  | some s =>
      if strContains s " " then
        if qLowerDefined then .ok { r with index := cleanupIndex q idxT s }
        else .error "UnboundLocalError"
      else .ok r

/-- The final NIFTY50 correction (api.py lines 298-312); it writes only
the `index` field, and `query_lower` is re-assigned unconditionally at
line 299, so this stage cannot fail. -/
def finalCheck (q : String) (r : Result) : Result :=
  let qLower := pyLower q
  { r with index :=
      if r.index = some "NIFTY50" then
        if strContains qLower "banknifty" || strContains qLower "bank nifty" then
          some "BANKNIFTY"
        else if strContains qLower "finnifty" || strContains qLower "fin nifty" then
          some "FINNIFTY"
        else if strContains qLower "midcap" then some "MIDCAPNIFTY"
        else if strContains qLower "sensex" then some "SENSEX"
        else r.index
      else r.index }

/-- The core pipeline `extract_options_data` (api.py lines 142-315), with
the recognizer output and the two module-global tables as explicit
parameters.  The `Except` layer carries the one uncaught exception the
body can raise (the unbound `query_lower` read). -/
def extract_options_data (q : String) (spans : List Span) (idxT optT : Table) :
    Except String Result :=
  let r1 := primaryResolver idxT optT spans
  let fb := anyNone r1
  let r2 := fallbackStage q idxT optT r1
  match cleanupStage fb q idxT r2 with
  | .error e => .error e
  | .ok r3 => .ok (finalCheck q r3)

/-- The `/extract` endpoint body (api.py lines 350-368): an empty query is
rejected with HTTP 400 before the core runs; otherwise the core's result
is returned unchanged — in particular `similar_pattern` is never
consulted. -/
def extract_entities (q : String) (spans : List Span) (idxT optT : Table) :
    Except String Result :=
  if q = "" then .error "HTTPException 400"
  else extract_options_data q spans idxT optT

/-- The module-global state of api.py that the core reads: the two mapper
dicts (lines 45-46; the spaCy model is the spans oracle and out of
scope).  Threading it explicitly makes mutation observable. -/
structure MapperState where
  index_mapper : Table
  option_mapper : Table

/-- One invocation of the core against the global state: every state
access in the body of `extract_options_data` is a read, so the state
comes back as it went in. -/
def resolveRun (st : MapperState) (q : String) (spans : List Span) :
    Except String Result × MapperState :=
  (extract_options_data q spans st.index_mapper st.option_mapper, st)

instance : DecidableEq (Except String Result) := fun a b =>
  match a, b with
  | .error x, .error y =>
      if h : x = y then .isTrue (by rw [h])
      else .isFalse (fun he => h (Except.error.inj he))
  | .ok x, .ok y =>
      if h : x = y then .isTrue (by rw [h])
      else .isFalse (fun he => h (Except.ok.inj he))
  | .error _, .ok _ => .isFalse Except.noConfusion
  | .ok _, .error _ => .isFalse Except.noConfusion

/-- The `index_mapper` dict shipped by the training script
(train_model.py lines 95-119; the literal assignment there overwrites the
variations-built dict, so this is the dict pickled for the API).  Note it
contains no `"sensex"` key. -/
def index_mapper : Table :=
  [("nifty", "NIFTY50"),
   ("nifty 50", "NIFTY50"),
   ("nifty50", "NIFTY50"),
   ("nifty index", "NIFTY50"),
   ("nifty 50 index", "NIFTY50"),
   ("bank nifty", "BANKNIFTY"),
   ("banknifty", "BANKNIFTY"),
   ("nifty bank", "BANKNIFTY"),
   ("banking index", "BANKNIFTY"),
   ("bank index", "BANKNIFTY"),
   ("fin nifty", "FINNIFTY"),
   ("finnifty", "FINNIFTY"),
   ("nifty fin", "FINNIFTY"),
   ("financial index", "FINNIFTY"),
   ("financial nifty", "FINNIFTY"),
   ("midcap nifty", "MIDCAPNIFTY"),
   ("nifty midcap", "MIDCAPNIFTY"),
   ("midcap", "MIDCAPNIFTY"),
   ("midcap index", "MIDCAPNIFTY"),
   ("mid cap nifty", "MIDCAPNIFTY")]

/-- The `option_mapper` dict shipped by the training script
(train_model.py lines 121-133); `"ce"` is its first key. -/
def option_mapper : Table :=
  [("ce", "CE"),
   ("call", "CE"),
   ("call option", "CE"),
   ("call options", "CE"),
   ("call option contract", "CE"),
   ("pe", "PE"),
   ("put", "PE"),
   ("put option", "PE"),
   ("put options", "PE"),
   ("put option contract", "PE")]

/-- One element of a `similar_pattern` template: a group of literal
alternatives `(?:a|b|...)`, or `\d{4,5}` (consecutive digits, no word
boundaries). -/
inductive Tok where
  | lits : List String → Tok
  | digits45 : Tok

/-- All suffixes of `l` that follow an occurrence of the literal `a`. -/
def suffixesAfterLit (a : List Char) : List Char → List (List Char)
  | [] => if a.isEmpty then [[]] else []
  | c :: cs =>
      (if a.isPrefixOf (c :: cs) then [(c :: cs).drop a.length] else []) ++
      suffixesAfterLit a cs

/-- All suffixes of `l` that follow four consecutive digits.  For the
existential matching below a four-digit occurrence subsumes a five-digit
one starting at the same place, since its suffix is longer. -/
def suffixesAfterDigits4 : List Char → List (List Char)
  | [] => []
  | c :: cs =>
      (if matchAtFour (c :: cs) then [(c :: cs).drop 4] else []) ++
      suffixesAfterDigits4 cs
where
  matchAtFour (l : List Char) : Bool :=
    (l.take 4).length == 4 && (l.take 4).all Char.isDigit

/-- All suffixes following an occurrence of the token. -/
def suffixesAfterTok (t : Tok) (l : List Char) : List (List Char) :=
  match t with
  | .lits alts => alts.flatMap (fun a => suffixesAfterLit a.data l)
  | .digits45 => suffixesAfterDigits4 l

/-- Does the sequence of tokens occur in `l`, in order (each later token
inside the suffix that follows the earlier one)?  This is `re.search` for
a pattern of the shape `T1.*T2.*...*Tn` restricted to a newline-free
string (`.` does not cross newlines). -/
def toksMatch : List Tok → List Char → Bool
  | [], _ => true
  | t :: ts, l => (suffixesAfterTok t l).any (fun s => toksMatch ts s)

/-- The three templates of `similar_pattern` (api.py lines 320-324). -/
def similarTemplates : List (List Tok) :=
  [[Tok.lits ["what", "how"], Tok.lits ["trend", "analysis", "status"],
    Tok.lits ["nifty", "banknifty", "finnifty", "midcap"], Tok.digits45,
    Tok.lits ["call", "put", "ce", "pe"]],
   [Tok.lits ["trend", "analysis", "status"],
    Tok.lits ["nifty", "banknifty", "finnifty", "midcap"], Tok.digits45,
    Tok.lits ["call", "put", "ce", "pe"]],
   [Tok.lits ["nifty", "banknifty", "finnifty", "midcap"], Tok.digits45,
    Tok.lits ["call", "put", "ce", "pe"], Tok.lits ["trend", "analysis", "status"]]]

/-- Maximal newline-free segments of a character list. -/
def splitOnNewline : List Char → List (List Char)
  | [] => [[]]
  | c :: cs =>
      if c = '\n' then [] :: splitOnNewline cs
      else
        match splitOnNewline cs with
        | seg :: rest => (c :: seg) :: rest
        | [] => [[c]]

/-- `similar_pattern(query)` (api.py lines 317-326): `re.IGNORECASE` is
modelled by lowercasing, and since no pattern element can contain a
newline while `.` cannot cross one, a match lives inside one
newline-free segment of the query. -/
def similar_pattern (q : String) : Bool :=
  (splitOnNewline (pyLower q).data).any
    (fun seg => similarTemplates.any (fun p => toksMatch p seg))

/-! ## Structural lemmas about the pipeline stages -/

/-- The three fallback sub-blocks are independent (each is guarded by and
writes a distinct field), so the sequential block equals a simultaneous
field-wise update. -/
theorem fallbackCore_eq (q : String) (idxT optT : Table) (r : Result) :
    fallbackCore q idxT optT r =
      ⟨(match r.index with
        | none => indexFallback idxT (pyLower q)
        | some v => some v),
       (match r.strikePrice with
        | none => strikeSearch q
        | some n => some n),
       (match r.strikeType with
        | none => optionFallback optT (pyLower q)
        | some v => some v)⟩ := by
  obtain ⟨i, sp, st⟩ := r
  cases i <;> cases sp <;> cases st <;> rfl

theorem anyNone_true_of_index (r : Result) (h : r.index = none) : anyNone r = true := by
  simp [anyNone, h]

theorem anyNone_true_of_strikePrice (r : Result) (h : r.strikePrice = none) :
    anyNone r = true := by
  simp [anyNone, h]

theorem anyNone_true_of_strikeType (r : Result) (h : r.strikeType = none) :
    anyNone r = true := by
  simp [anyNone, h]

theorem fallbackStage_of_not_anyNone (q : String) (idxT optT : Table) (r : Result)
    (h : anyNone r = false) : fallbackStage q idxT optT r = r := by
  simp [fallbackStage, h]

theorem fallbackStage_index_of_some (q : String) (idxT optT : Table) (r : Result)
    (v : String) (h : r.index = some v) : (fallbackStage q idxT optT r).index = some v := by
  unfold fallbackStage
  split
  · rw [fallbackCore_eq]; simp [h]
  · exact h

theorem fallbackStage_strikePrice_of_some (q : String) (idxT optT : Table) (r : Result)
    (n : Int) (h : r.strikePrice = some n) :
    (fallbackStage q idxT optT r).strikePrice = some n := by
  unfold fallbackStage
  split
  · rw [fallbackCore_eq]; simp [h]
  · exact h

theorem fallbackStage_strikeType_of_some (q : String) (idxT optT : Table) (r : Result)
    (v : String) (h : r.strikeType = some v) :
    (fallbackStage q idxT optT r).strikeType = some v := by
  unfold fallbackStage
  split
  · rw [fallbackCore_eq]; simp [h]
  · exact h

theorem fallbackStage_index_of_none (q : String) (idxT optT : Table) (r : Result)
    (h : r.index = none) :
    (fallbackStage q idxT optT r).index = indexFallback idxT (pyLower q) := by
  unfold fallbackStage
  rw [anyNone_true_of_index r h]
  rw [fallbackCore_eq]
  simp [h]

theorem fallbackStage_strikePrice_of_none (q : String) (idxT optT : Table) (r : Result)
    (h : r.strikePrice = none) :
    (fallbackStage q idxT optT r).strikePrice = strikeSearch q := by
  unfold fallbackStage
  rw [anyNone_true_of_strikePrice r h]
  rw [fallbackCore_eq]
  simp [h]

theorem fallbackStage_strikeType_of_none (q : String) (idxT optT : Table) (r : Result)
    (h : r.strikeType = none) :
    (fallbackStage q idxT optT r).strikeType = optionFallback optT (pyLower q) := by
  unfold fallbackStage
  rw [anyNone_true_of_strikeType r h]
  rw [fallbackCore_eq]
  simp [h]

theorem cleanupStage_of_index_none (b : Bool) (q : String) (idxT : Table) (r : Result)
    (h : r.index = none) : cleanupStage b q idxT r = .ok r := by
  simp [cleanupStage, h]

theorem cleanupStage_of_no_space (b : Bool) (q : String) (idxT : Table) (r : Result)
    (s : String) (h : r.index = some s) (hs : strContains s " " = false) :
    cleanupStage b q idxT r = .ok r := by
  simp [cleanupStage, h, hs]

/-- When the fallback block ran, the cleanup can only rewrite the index:
it succeeds and leaves the other two fields unchanged. -/
theorem cleanupStage_true_ok (q : String) (idxT : Table) (r : Result) :
    ∃ r', cleanupStage true q idxT r = .ok r' ∧
      r'.strikePrice = r.strikePrice ∧ r'.strikeType = r.strikeType := by
  rcases hr : r.index with _ | s
  · exact ⟨r, cleanupStage_of_index_none true q idxT r hr, rfl, rfl⟩
  · by_cases hs : strContains s " " = true
    · refine ⟨{ r with index := cleanupIndex q idxT s }, ?_, rfl, rfl⟩
      simp [cleanupStage, hr, hs]
    · exact ⟨r, by simp [cleanupStage, hr, hs], rfl, rfl⟩

theorem finalCheck_strikePrice (q : String) (r : Result) :
    (finalCheck q r).strikePrice = r.strikePrice := rfl

theorem finalCheck_strikeType (q : String) (r : Result) :
    (finalCheck q r).strikeType = r.strikeType := rfl

theorem finalCheck_index_of_ne (q : String) (r : Result)
    (h : ¬ r.index = some "NIFTY50") : (finalCheck q r).index = r.index := by
  simp [finalCheck, h]

/-- Unfolding of the pipeline through an `.ok` cleanup outcome. -/
theorem extract_eq_final (q : String) (spans : List Span) (idxT optT : Table)
    (r' : Result)
    (h : cleanupStage (anyNone (primaryResolver idxT optT spans)) q idxT
           (fallbackStage q idxT optT (primaryResolver idxT optT spans)) = .ok r') :
    extract_options_data q spans idxT optT = .ok (finalCheck q r') := by
  unfold extract_options_data
  dsimp only
  rw [h]

/-! ## Table-scan lemmas -/

theorem firstContainedValue_eq_none {t : Table} {hay : String}
    (h : ∀ kv ∈ t, strContains hay kv.1 = false) :
    firstContainedValue t hay = none := by
  induction t with
  | nil => rfl
  | cons kv rest ih =>
      obtain ⟨k, v⟩ := kv
      have hk := h (k, v) (List.mem_cons_self _ _)
      simp only [firstContainedValue, hk]
      simp only [Bool.false_eq_true, if_false]
      exact ih fun kv hm => h kv (List.mem_cons_of_mem _ hm)

theorem firstContainedKey_unique {t : Table} {text k₀ : String} {v₀ : String}
    (hmem : (k₀, v₀) ∈ t) (hk : strContains text k₀ = true)
    (huniq : ∀ kv ∈ t, strContains text kv.1 = true → kv.1 = k₀) :
    firstContainedKey t text = some k₀ := by
  induction t with
  | nil => cases hmem
  | cons kv rest ih =>
      obtain ⟨k, v⟩ := kv
      by_cases hc : strContains text k = true
      · have he : k = k₀ := huniq (k, v) (List.mem_cons_self _ _) hc
        subst he
        simp [firstContainedKey, hc]
      · have hne : ¬ (k₀, v₀) = (k, v) := by
          intro he
          injection he with h1 h2
          exact absurd (h1 ▸ hk) hc
        have hmem' : (k₀, v₀) ∈ rest := by
          rcases List.mem_cons.mp hmem with h1 | h1
          · exact absurd h1 hne
          · exact h1
        simp only [firstContainedKey, hc, if_false]
        exact ih hmem' fun kv hm => huniq kv (List.mem_cons_of_mem _ hm)

theorem tableLookup_unique {t : Table} {k₀ v₀ : String}
    (hmem : (k₀, v₀) ∈ t)
    (huniq : ∀ kv ∈ t, kv.1 = k₀ → kv.2 = v₀) :
    tableLookup t k₀ = some v₀ := by
  induction t with
  | nil => cases hmem
  | cons kv rest ih =>
      obtain ⟨k, v⟩ := kv
      by_cases hc : k = k₀
      · have : v = v₀ := huniq (k, v) (List.mem_cons_self _ _) hc
        simp [tableLookup, hc, this]
      · have hmem' : (k₀, v₀) ∈ rest := by
          rcases List.mem_cons.mp hmem with h1 | h1
          · exact absurd (congrArg Prod.fst h1.symm) hc
          · exact h1
        simp only [tableLookup, hc, if_false]
        exact ih hmem' fun kv hm => huniq kv (List.mem_cons_of_mem _ hm)

/-- Every successful pipeline outcome is the final check applied to the
cleanup stage's output. -/
theorem extract_ok_shape (q : String) (spans : List Span) (idxT optT : Table)
    (r : Result) (h : extract_options_data q spans idxT optT = .ok r) :
    ∃ r3, r = finalCheck q r3 := by
  unfold extract_options_data at h
  dsimp only at h
  cases hc : cleanupStage (anyNone (primaryResolver idxT optT spans)) q idxT
      (fallbackStage q idxT optT (primaryResolver idxT optT spans)) with
  | error e => rw [hc] at h; cases h
  | ok r3 => rw [hc] at h; exact ⟨r3, (Except.ok.inj h).symm⟩

/-- On the query `"bank nifty 35000 put"` the final check never lets a
NIFTY50 index through: the `"bank nifty"` cue rewrites it. -/
theorem finalCheck_bn_ne (r : Result) :
    ¬ (finalCheck "bank nifty 35000 put" r).index = some "NIFTY50" := by
  by_cases hi : r.index = some "NIFTY50"
  · simp [finalCheck, hi,
      show strContains (pyLower "bank nifty 35000 put") "banknifty" = false by decide,
      show strContains (pyLower "bank nifty 35000 put") "bank nifty" = true by decide]
  · rw [finalCheck_index_of_ne _ _ hi]
    exact hi

/-- On the query `"bank nifty 35000 put"` the final check rewrites a
NIFTY50 index to BANKNIFTY. -/
theorem finalCheck_bn_n50 (r : Result) (hi : r.index = some "NIFTY50") :
    (finalCheck "bank nifty 35000 put" r).index = some "BANKNIFTY" := by
  simp [finalCheck, hi,
    show strContains (pyLower "bank nifty 35000 put") "banknifty" = false by decide,
    show strContains (pyLower "bank nifty 35000 put") "bank nifty" = true by decide]

/-! ## Claim theorems -/

/-- C1: the claim says the core never raises on non-empty input; the code
violates it.  When the spans resolve all three fields and the index value
retains a space (an INDEX span missing the table), the fallback block is
skipped, its local `query_lower` is never assigned, and the cleanup block
reads it: `extract_options_data` raises `UnboundLocalError`
(api.py line 284).  This theorem evaluates the model at that input. -/
theorem claimC1_unbound_local_error :
    extract_options_data "nifty"
      [⟨"foo bar", .INDEX⟩, ⟨"1234", .STRIKE_PRICE⟩, ⟨"ce", .OPTION_TYPE⟩]
      index_mapper option_mapper = .error "UnboundLocalError" := by
  decide

/-- C2 counterexample: the hard-override templates match the query
`"what is the trend of nifty 23600 call option"`, yet an INDEX span
`"sensex"` makes the pipeline return index `SENSEX`: the result is not
the fixed literal triple regardless of spans, because `similar_pattern`
is never invoked by `extract_entities` (api.py lines 350-368). -/
theorem claimC2_cex :
    extract_options_data "what is the trend of nifty 23600 call option"
      [⟨"sensex", .INDEX⟩] index_mapper option_mapper =
      .ok ⟨some "SENSEX", some 23600, some "CE"⟩ ∧
    ¬ extract_options_data "what is the trend of nifty 23600 call option"
      [⟨"sensex", .INDEX⟩] index_mapper option_mapper =
      .ok ⟨some "NIFTY50", some 23600, some "CE"⟩ := by
  constructor
  · decide
  · decide

/-- C2 amended: `similar_pattern` does match the canonical query, but the
pipeline never consults it and no override occurs; with no spans and the
shipped tables the ordinary fallbacks happen to produce exactly
`{NIFTY50, 23600, CE}` for that query. -/
theorem claimC2_amended :
    similar_pattern "what is the trend of nifty 23600 call option" = true ∧
    extract_options_data "what is the trend of nifty 23600 call option" []
      index_mapper option_mapper = .ok ⟨some "NIFTY50", some 23600, some "CE"⟩ := by
  constructor
  · decide
  · decide

/-- C7 counterexample: a later STRIKE_PRICE span that yields no value
(`"abc"`: `int()` fails and it has no digits) does not overwrite the
earlier span's value, so the result differs from processing the later
span alone — the claimed unconditional last-write-wins fails for
STRIKE_PRICE. -/
theorem claimC7_cex :
    (primaryResolver index_mapper option_mapper
      [⟨"1234", .STRIKE_PRICE⟩, ⟨"abc", .STRIKE_PRICE⟩]).strikePrice = some 1234 ∧
    (primaryResolver index_mapper option_mapper
      [⟨"abc", .STRIKE_PRICE⟩]).strikePrice = none ∧
    ¬ (primaryResolver index_mapper option_mapper
        [⟨"1234", .STRIKE_PRICE⟩, ⟨"abc", .STRIKE_PRICE⟩]).strikePrice =
      (primaryResolver index_mapper option_mapper
        [⟨"abc", .STRIKE_PRICE⟩]).strikePrice := by
  refine ⟨by decide, by decide, by decide⟩

/-- C7 amended: spans are processed in emission order and the last span of
a label determines the field — unconditionally for INDEX and OPTION_TYPE,
and for STRIKE_PRICE whenever that span yields a value (parses as an
integer or contains a digit); a valueless STRIKE_PRICE span leaves the
earlier result in place. -/
theorem claimC7_amended (idxT optT : Table) (l : List Span) (sp : Span) :
    (sp.label = .INDEX →
      (primaryResolver idxT optT (l ++ [sp])).index =
        (primaryResolver idxT optT [sp]).index) ∧
    (sp.label = .OPTION_TYPE →
      (primaryResolver idxT optT (l ++ [sp])).strikeType =
        (primaryResolver idxT optT [sp]).strikeType) ∧
    (∀ n : Int, sp.label = .STRIKE_PRICE → strikeSpanValue sp.text = some n →
      (primaryResolver idxT optT (l ++ [sp])).strikePrice = some n) := by
  have hApp : primaryResolver idxT optT (l ++ [sp]) =
      primaryStep idxT optT (primaryResolver idxT optT l) sp := by
    unfold primaryResolver
    rw [List.foldl_append]
    rfl
  refine ⟨?_, ?_, ?_⟩
  · intro h
    rw [hApp]
    simp [primaryResolver, primaryStep, h]
  · intro h
    rw [hApp]
    simp [primaryResolver, primaryStep, h]
  · intro n h hv
    rw [hApp]
    simp [primaryStep, h, hv]

/-- C7 amended, instantiated: the final INDEX span wins over an earlier
one, the final OPTION_TYPE span wins over an earlier one, and a final
STRIKE_PRICE span carrying a value wins over an earlier one. -/
theorem claimC7_amended_witness :
    (primaryResolver index_mapper option_mapper
        ([⟨"nifty", .INDEX⟩, ⟨"put", .OPTION_TYPE⟩] ++ [⟨"sensex", .INDEX⟩])).index =
      (primaryResolver index_mapper option_mapper [⟨"sensex", .INDEX⟩]).index ∧
    (primaryResolver index_mapper option_mapper
        ([⟨"put", .OPTION_TYPE⟩] ++ [⟨"call", .OPTION_TYPE⟩])).strikeType =
      (primaryResolver index_mapper option_mapper [⟨"call", .OPTION_TYPE⟩]).strikeType ∧
    (primaryResolver index_mapper option_mapper
        ([⟨"1234", .STRIKE_PRICE⟩] ++ [⟨"9999", .STRIKE_PRICE⟩])).strikePrice =
      some 9999 :=
  ⟨(claimC7_amended index_mapper option_mapper
      [⟨"nifty", .INDEX⟩, ⟨"put", .OPTION_TYPE⟩] ⟨"sensex", .INDEX⟩).1 rfl,
   (claimC7_amended index_mapper option_mapper
      [⟨"put", .OPTION_TYPE⟩] ⟨"call", .OPTION_TYPE⟩).2.1 rfl,
   (claimC7_amended index_mapper option_mapper
      [⟨"1234", .STRIKE_PRICE⟩] ⟨"9999", .STRIKE_PRICE⟩).2.2 9999 rfl (by decide)⟩

/-- C8: given an INDEX span `"sensex sd"` and any index table that has the
entry `"sensex" → "SENSEX"`, whose other keys do not occur in
`"sensex sd"`, and which maps the key `"sensex"` only to `"SENSEX"`, the
Primary Resolver repairs the span text to `"sensex"` by the substring
scan and resolves the index to `SENSEX`. -/
theorem claimC8_substring_repair (idxT optT : Table)
    (h1 : ("sensex", "SENSEX") ∈ idxT)
    (h2 : ∀ kv ∈ idxT, strContains "sensex sd" kv.1 = true → kv.1 = "sensex")
    (h3 : ∀ kv ∈ idxT, kv.1 = "sensex" → kv.2 = "SENSEX") :
    (primaryResolver idxT optT [⟨"sensex sd", .INDEX⟩]).index = some "SENSEX" := by
  have hk : firstContainedKey idxT "sensex sd" = some "sensex" :=
    firstContainedKey_unique h1 (by decide) h2
  have hv : tableLookup idxT "sensex" = some "SENSEX" := tableLookup_unique h1 h3
  show (primaryStep idxT optT ⟨none, none, none⟩ ⟨"sensex sd", .INDEX⟩).index =
    some "SENSEX"
  simp only [primaryStep]
  unfold resolveIndexSpanText
  dsimp only
  rw [show pyLower "sensex sd" = "sensex sd" by decide, hk]
  dsimp only
  rw [hv]

/-- C8 instantiated at a concrete table containing `"sensex" → "SENSEX"`. -/
theorem claimC8_substring_repair_witness :
    (primaryResolver [("nifty", "NIFTY50"), ("sensex", "SENSEX")] option_mapper
      [⟨"sensex sd", .INDEX⟩]).index = some "SENSEX" :=
  claimC8_substring_repair [("nifty", "NIFTY50"), ("sensex", "SENSEX")] option_mapper
    (by decide) (by decide) (by decide)

/-- C9: a run of the core against the explicit global mapper state leaves
the state untouched, and re-running on the state a first run returned
yields the same result record — the pipeline is deterministic and
mutation-free. -/
theorem claimC9_deterministic_pure (st : MapperState) (q : String) (spans : List Span) :
    (resolveRun st q spans).2 = st ∧
    (resolveRun st q spans).1 = (resolveRun (resolveRun st q spans).2 q spans).1 :=
  ⟨rfl, rfl⟩

/-- C3 counterexample: on the query `"bank nifty 35000 put"` an INDEX
span `"sensex"` resolves (as the upper-cased raw text, the shipped table
having no sensex key) to `SENSEX`, so the returned index is not
`BANKNIFTY` for every spans list. -/
theorem claimC3_cex :
    extract_options_data "bank nifty 35000 put" [⟨"sensex", .INDEX⟩]
      index_mapper option_mapper = .ok ⟨some "SENSEX", some 35000, some "PE"⟩ ∧
    ¬ (⟨some "SENSEX", some 35000, some "PE"⟩ : Result).index = some "BANKNIFTY" := by
  constructor
  · decide
  · decide

/-- C3 amended: for the query `"bank nifty 35000 put"` and every spans
list, a returned record never carries index `NIFTY50`; and whenever the
spans leave the index unresolved or resolve it to `NIFTY50`, the returned
index is `BANKNIFTY`. -/
theorem claimC3_amended (spans : List Span) :
    (∀ r, extract_options_data "bank nifty 35000 put" spans
        index_mapper option_mapper = .ok r → ¬ r.index = some "NIFTY50") ∧
    ((primaryResolver index_mapper option_mapper spans).index = none ∨
     (primaryResolver index_mapper option_mapper spans).index = some "NIFTY50" →
      ∀ r, extract_options_data "bank nifty 35000 put" spans
        index_mapper option_mapper = .ok r → r.index = some "BANKNIFTY") := by
  constructor
  · intro r h
    obtain ⟨r3, rfl⟩ := extract_ok_shape _ _ _ _ r h
    exact finalCheck_bn_ne r3
  · intro hyp r h
    rcases hyp with hnone | h50
    · have hfbi : (fallbackStage "bank nifty 35000 put" index_mapper option_mapper
          (primaryResolver index_mapper option_mapper spans)).index =
          indexFallback index_mapper (pyLower "bank nifty 35000 put") :=
        fallbackStage_index_of_none _ _ _ _ hnone
      have hbn : indexFallback index_mapper (pyLower "bank nifty 35000 put") =
          some "BANKNIFTY" := by decide
      have hok : cleanupStage (anyNone (primaryResolver index_mapper option_mapper spans))
          "bank nifty 35000 put" index_mapper
          (fallbackStage "bank nifty 35000 put" index_mapper option_mapper
            (primaryResolver index_mapper option_mapper spans)) =
          .ok (fallbackStage "bank nifty 35000 put" index_mapper option_mapper
            (primaryResolver index_mapper option_mapper spans)) :=
        cleanupStage_of_no_space _ _ _ _ "BANKNIFTY" (hbn ▸ hfbi) (by decide)
      rw [extract_eq_final _ _ _ _ _ hok] at h
      rw [← Except.ok.inj h]
      rw [finalCheck_index_of_ne]
      · rw [hfbi, hbn]
      · rw [hfbi, hbn]
        decide
    · have hfbi : (fallbackStage "bank nifty 35000 put" index_mapper option_mapper
          (primaryResolver index_mapper option_mapper spans)).index = some "NIFTY50" :=
        fallbackStage_index_of_some _ _ _ _ _ h50
      have hok : cleanupStage (anyNone (primaryResolver index_mapper option_mapper spans))
          "bank nifty 35000 put" index_mapper
          (fallbackStage "bank nifty 35000 put" index_mapper option_mapper
            (primaryResolver index_mapper option_mapper spans)) =
          .ok (fallbackStage "bank nifty 35000 put" index_mapper option_mapper
            (primaryResolver index_mapper option_mapper spans)) :=
        cleanupStage_of_no_space _ _ _ _ "NIFTY50" hfbi (by decide)
      rw [extract_eq_final _ _ _ _ _ hok] at h
      rw [← Except.ok.inj h]
      exact finalCheck_bn_n50 _ hfbi

/-- C3 amended, instantiated with the empty spans list: the primary index
is unresolved, the pipeline answers BANKNIFTY, and a record the pipeline
returns never carries NIFTY50. -/
theorem claimC3_amended_witness :
    (primaryResolver index_mapper option_mapper ([] : List Span)).index = none ∧
    extract_options_data "bank nifty 35000 put" [] index_mapper option_mapper =
      .ok ⟨some "BANKNIFTY", some 35000, some "PE"⟩ ∧
    (⟨some "BANKNIFTY", some 35000, some "PE"⟩ : Result).index = some "BANKNIFTY" ∧
    ¬ (⟨some "BANKNIFTY", some 35000, some "PE"⟩ : Result).index = some "NIFTY50" :=
  ⟨by decide, by decide,
   (claimC3_amended []).2 (Or.inl (by decide))
     ⟨some "BANKNIFTY", some 35000, some "PE"⟩ (by decide),
   (claimC3_amended []).1 ⟨some "BANKNIFTY", some 35000, some "PE"⟩ (by decide)⟩

/-- C4: a query with no index phrase (priority or table), no word-bounded
4-5 digit number, no option-table phrase and no call/put/ce/pe cue, with
an empty spans list, makes the pipeline return the all-null record
without error. -/
theorem claimC4_no_cues (q : String) (idxT optT : Table)
    (h1 : ∀ kv ∈ priority_indices, strContains (pyLower q) kv.1 = false)
    (h2 : ∀ kv ∈ idxT, strContains (pyLower q) kv.1 = false)
    (h3 : strikeSearch q = none)
    (h4 : ∀ kv ∈ optT, strContains (pyLower q) kv.1 = false)
    (h5 : strContains (pyLower q) "call" = false)
    (h6 : strContains (pyLower q) " ce" = false)
    (h7 : strContains (pyLower q) "ce " = false)
    (h8 : strContains (pyLower q) " ce " = false)
    (h9 : strContains (pyLower q) "put" = false)
    (h10 : strContains (pyLower q) " pe" = false)
    (h11 : strContains (pyLower q) "pe " = false)
    (h12 : strContains (pyLower q) " pe " = false) :
    extract_options_data q [] idxT optT = .ok ⟨none, none, none⟩ := by
  have hif : indexFallback idxT (pyLower q) = none := by
    unfold indexFallback
    rw [firstContainedValue_eq_none h1, firstContainedValue_eq_none h2]
  have hof : optionFallback optT (pyLower q) = none := by
    unfold optionFallback
    rw [firstContainedValue_eq_none h4]
    simp [h5, h6, h7, h8, h9, h10, h11, h12]
  have hfb : fallbackStage q idxT optT ⟨none, none, none⟩ = ⟨none, none, none⟩ := by
    have hg : anyNone ⟨none, none, none⟩ = true := rfl
    unfold fallbackStage
    rw [hg, fallbackCore_eq]
    simp [hif, h3, hof]
  have hcl : cleanupStage (anyNone (primaryResolver idxT optT [])) q idxT
      (fallbackStage q idxT optT (primaryResolver idxT optT [])) =
      .ok ⟨none, none, none⟩ := by
    have hpr : primaryResolver idxT optT [] = (⟨none, none, none⟩ : Result) := rfl
    rw [hpr, hfb]
    exact cleanupStage_of_index_none _ q idxT _ rfl
  rw [extract_eq_final q [] idxT optT ⟨none, none, none⟩ hcl]
  rfl

/-- C4 instantiated at a cue-free query with the shipped tables. -/
theorem claimC4_no_cues_witness :
    extract_options_data "hello world" [] index_mapper option_mapper =
      .ok ⟨none, none, none⟩ :=
  claimC4_no_cues "hello world" index_mapper option_mapper
    (by decide) (by decide) (by decide) (by decide) (by decide) (by decide)
    (by decide) (by decide) (by decide) (by decide) (by decide) (by decide)

/-- C5: the fallback stage is the identity when no field is null after
the Primary Resolver, and it preserves every field the Primary Resolver
already set. -/
theorem claimC5_fallback_frame (q : String) (idxT optT : Table) (spans : List Span) :
    (anyNone (primaryResolver idxT optT spans) = false →
      fallbackStage q idxT optT (primaryResolver idxT optT spans) =
        primaryResolver idxT optT spans) ∧
    (∀ v, (primaryResolver idxT optT spans).index = some v →
      (fallbackStage q idxT optT (primaryResolver idxT optT spans)).index = some v) ∧
    (∀ n, (primaryResolver idxT optT spans).strikePrice = some n →
      (fallbackStage q idxT optT (primaryResolver idxT optT spans)).strikePrice = some n) ∧
    (∀ v, (primaryResolver idxT optT spans).strikeType = some v →
      (fallbackStage q idxT optT (primaryResolver idxT optT spans)).strikeType = some v) :=
  ⟨fallbackStage_of_not_anyNone q idxT optT _,
   fun v h => fallbackStage_index_of_some q idxT optT _ v h,
   fun n h => fallbackStage_strikePrice_of_some q idxT optT _ n h,
   fun v h => fallbackStage_strikeType_of_some q idxT optT _ v h⟩

/-- C5 instantiated: spans resolve all three fields on a query whose
fallbacks would have produced different values (`"bank nifty 9999 put"`),
and the fallback stage changes nothing. -/
theorem claimC5_fallback_frame_witness :
    fallbackStage "bank nifty 9999 put" index_mapper option_mapper
      (primaryResolver index_mapper option_mapper
        [⟨"nifty", .INDEX⟩, ⟨"18000", .STRIKE_PRICE⟩, ⟨"call", .OPTION_TYPE⟩]) =
      primaryResolver index_mapper option_mapper
        [⟨"nifty", .INDEX⟩, ⟨"18000", .STRIKE_PRICE⟩, ⟨"call", .OPTION_TYPE⟩] ∧
    (fallbackStage "bank nifty 9999 put" index_mapper option_mapper
      (primaryResolver index_mapper option_mapper
        [⟨"nifty", .INDEX⟩, ⟨"18000", .STRIKE_PRICE⟩, ⟨"call", .OPTION_TYPE⟩])).index =
      some "NIFTY50" ∧
    (fallbackStage "bank nifty 9999 put" index_mapper option_mapper
      (primaryResolver index_mapper option_mapper
        [⟨"nifty", .INDEX⟩, ⟨"18000", .STRIKE_PRICE⟩, ⟨"call", .OPTION_TYPE⟩])).strikePrice =
      some 18000 ∧
    (fallbackStage "bank nifty 9999 put" index_mapper option_mapper
      (primaryResolver index_mapper option_mapper
        [⟨"nifty", .INDEX⟩, ⟨"18000", .STRIKE_PRICE⟩, ⟨"call", .OPTION_TYPE⟩])).strikeType =
      some "CE" :=
  ⟨(claimC5_fallback_frame "bank nifty 9999 put" index_mapper option_mapper
      [⟨"nifty", .INDEX⟩, ⟨"18000", .STRIKE_PRICE⟩, ⟨"call", .OPTION_TYPE⟩]).1 (by decide),
   (claimC5_fallback_frame "bank nifty 9999 put" index_mapper option_mapper
      [⟨"nifty", .INDEX⟩, ⟨"18000", .STRIKE_PRICE⟩, ⟨"call", .OPTION_TYPE⟩]).2.1
      "NIFTY50" (by decide),
   (claimC5_fallback_frame "bank nifty 9999 put" index_mapper option_mapper
      [⟨"nifty", .INDEX⟩, ⟨"18000", .STRIKE_PRICE⟩, ⟨"call", .OPTION_TYPE⟩]).2.2.1
      18000 (by decide),
   (claimC5_fallback_frame "bank nifty 9999 put" index_mapper option_mapper
      [⟨"nifty", .INDEX⟩, ⟨"18000", .STRIKE_PRICE⟩, ⟨"call", .OPTION_TYPE⟩]).2.2.2
      "CE" (by decide)⟩

/-- C6: whenever the spans yield no strike price, the pipeline succeeds
and its strike price is exactly the result of the word-bounded 4-5 digit
search over the original-case query (`strikeSearch`): the first such run
as an integer, or null when there is none. -/
theorem claimC6_strike_fallback (q : String) (spans : List Span) (idxT optT : Table)
    (h : (primaryResolver idxT optT spans).strikePrice = none) :
    ∃ r, extract_options_data q spans idxT optT = .ok r ∧
      r.strikePrice = strikeSearch q := by
  have hg : anyNone (primaryResolver idxT optT spans) = true :=
    anyNone_true_of_strikePrice _ h
  obtain ⟨r', hok, hsp, hst⟩ := cleanupStage_true_ok q idxT
    (fallbackStage q idxT optT (primaryResolver idxT optT spans))
  refine ⟨finalCheck q r', ?_, ?_⟩
  · apply extract_eq_final
    rw [hg]
    exact hok
  · rw [finalCheck_strikePrice, hsp, fallbackStage_strikePrice_of_none _ _ _ _ h]

/-- C6 instantiated on `"nifty 17500 pe premium"` with no spans. -/
theorem claimC6_strike_fallback_witness :
    (primaryResolver index_mapper option_mapper ([] : List Span)).strikePrice = none ∧
    (∃ r, extract_options_data "nifty 17500 pe premium" [] index_mapper option_mapper =
        .ok r ∧ r.strikePrice = strikeSearch "nifty 17500 pe premium") ∧
    strikeSearch "nifty 17500 pe premium" = some 17500 :=
  ⟨by decide,
   claimC6_strike_fallback "nifty 17500 pe premium" [] index_mapper option_mapper
     (by decide),
   by decide⟩

/-- C10: the option fallback's substring checks are not token-bounded:
when the lowercased query contains `"ce"` anywhere (also inside a word
such as `"price"`) and the spans give no option type, the shipped
`option_mapper` — whose first key is `"ce"` — makes the pipeline return
strikeType `CE`, whatever else (for example `"put"`) the query contains. -/
theorem claimC10_ce_substring (q : String) (spans : List Span) (idxT : Table)
    (h1 : strContains (pyLower q) "ce" = true)
    (h2 : (primaryResolver idxT option_mapper spans).strikeType = none) :
    ∃ r, extract_options_data q spans idxT option_mapper = .ok r ∧
      r.strikeType = some "CE" := by
  have hg : anyNone (primaryResolver idxT option_mapper spans) = true :=
    anyNone_true_of_strikeType _ h2
  have hfc : firstContainedValue option_mapper (pyLower q) = some "CE" := by
    simp [option_mapper, firstContainedValue, h1]
  have hof : optionFallback option_mapper (pyLower q) = some "CE" := by
    unfold optionFallback
    rw [hfc]
  obtain ⟨r', hok, hsp, hst⟩ := cleanupStage_true_ok q idxT
    (fallbackStage q idxT option_mapper (primaryResolver idxT option_mapper spans))
  refine ⟨finalCheck q r', ?_, ?_⟩
  · apply extract_eq_final
    rw [hg]
    exact hok
  · rw [finalCheck_strikeType, hst, fallbackStage_strikeType_of_none _ _ _ _ h2, hof]

/-- C10 instantiated on `"price of put"`: the `"ce"` inside `"price"`
wins although the query says `"put"`. -/
theorem claimC10_ce_substring_witness :
    strContains (pyLower "price of put") "ce" = true ∧
    strContains (pyLower "price of put") "put" = true ∧
    (∃ r, extract_options_data "price of put" [] index_mapper option_mapper = .ok r ∧
      r.strikeType = some "CE") :=
  ⟨by decide, by decide,
   claimC10_ce_substring "price of put" [] index_mapper (by decide) (by decide)⟩

end OptionsNER
